import Mathlib

/-!
Verification development for the Cardano wallet dashboard application
(wallet page, dashboard page, blockchain utilities, AI categorization
utilities).  The JavaScript/TypeScript functions under scrutiny are
embedded shallowly: HTTP calls and wallet calls become explicit
parameters carrying their outcome (`Except`/`Option`/lists), integer
ledger quantities become `Nat`/`Int`, parsed floating-point amounts
become `Rat`, and the exact decimal renderings produced by JavaScript
number-to-string conversion are modelled by exact decimal rendering
functions.
-/

/-! ## JavaScript-style helpers -/

/-- Truthiness of an optional string environment variable or field:
`undefined` and the empty string are falsy, every other string is truthy. -/
def jsTruthyOpt (o : Option String) : Bool :=
  match o with
  | none => false
  | some s => !(s == "")

/-- The JavaScript idiom `s || undefined`: an empty string becomes `undefined`. -/
def jsOrUndef (s : String) : Option String :=
  if s == "" then none else some s

/-- The JavaScript idiom `o || d` on an optional string with a string default:
`undefined` and the empty string fall through to the default. -/
def jsOrElse (o : Option String) (d : String) : String :=
  match o with
  | none => d
  | some s => if s == "" then d else s

/-- Contiguous containment of one character list in another. -/
def listHasInfix (sub : List Char) : List Char → Bool
  | [] => sub.isEmpty
  | c :: rest => sub.isPrefixOf (c :: rest) || listHasInfix sub rest

/-- JavaScript `s.includes(sub)`: contiguous substring containment. -/
def jsIncludes (s sub : String) : Bool :=
  listHasInfix sub.toList s.toList

/-- JavaScript `s.trim()`: strip leading and trailing whitespace. -/
def jsTrim (s : String) : String :=
  String.mk (((s.toList.dropWhile Char.isWhitespace).reverse.dropWhile
    Char.isWhitespace).reverse)

/-- Zero-pad the decimal digits of `n` on the left to six characters
(for the fractional part of a lovelace amount, `n < 1000000`). -/
def natPad6 (n : Nat) : String :=
  let s := toString n
  String.mk (List.replicate (6 - s.length) '0') ++ s

/-- Drop the trailing `0` characters of a digit string. -/
def dropTrailingZeros (s : String) : String :=
  String.mk (((s.toList.reverse).dropWhile (fun c => c == '0')).reverse)

/-- Decimal rendering of `n / 1_000_000` as produced by the JavaScript
expression `(n / 1_000_000).toString()` for an exactly representable
result: the integer part, and, when the remainder is non-zero, a dot
followed by the six-digit fraction with trailing zeros stripped. -/
def renderLovelaceAsAda (n : Nat) : String :=
  let ip := n / 1000000
  let fp := n % 1000000
  if fp == 0 then toString ip
  else toString ip ++ "." ++ dropTrailingZeros (natPad6 fp)

/-! ## Blockchain utilities: UTXO data model and the net-amount computation
(`calculateAccurateTransactionAmount` in the blockchain utilities file) -/

/-- One `(unit, quantity)` entry of a UTXO amount list; the quantity digit
string of the API response is modelled by the natural number `parseInt`
yields on it. -/
structure AssetAmount where
  unit : String
  quantity : Nat
  deriving DecidableEq, Repr

/-- One input or output of a transaction UTXO set: an address and its
amount list. -/
structure UTXOEntry where
  address : String
  amount : List AssetAmount
  deriving DecidableEq, Repr

/-- The UTXO set of a transaction as returned by `fetchTransactionUTXOs`. -/
structure TxUTXOs where
  inputs : List UTXOEntry
  outputs : List UTXOEntry
  deriving DecidableEq, Repr

/-- The contribution of one UTXO entry in the source loops: the quantity of
the first amount entry whose unit is `lovelace` (`amount.find(...)`), or
nothing when there is none. -/
def lovelaceOfEntry (e : UTXOEntry) : Nat :=
  match e.amount.find? (fun a => a.unit == "lovelace") with
  | some a => a.quantity
  | none => 0

/-- The accumulation loop of `calculateAccurateTransactionAmount` over one
side of the UTXO set: for each entry at the given address, add the
quantity of its first `lovelace` amount. -/
def sumLovelaceByFind (entries : List UTXOEntry) (address : String) : Nat :=
  match entries with
  | [] => 0
  | e :: rest =>
      (if e.address == address then lovelaceOfEntry e else 0) +
        sumLovelaceByFind rest address

/-- `calculateAccurateTransactionAmount`: the outcome of the
`fetchTransactionUTXOs` call is passed in explicitly; on any fetch error the
surrounding `catch` returns the string `"0"`, otherwise the function nets
received lovelace (outputs at the address) against spent lovelace (inputs at
the address) and renders the absolute value divided by 1,000,000. -/
def calculateAccurateTransactionAmount
    (fetchResult : Except String TxUTXOs) (address : String) : String :=
  match fetchResult with
  | .error _ => "0"
  | .ok utxos =>
      let receivedAmount := sumLovelaceByFind utxos.outputs address
      let spentAmount := sumLovelaceByFind utxos.inputs address
      let netAmount : Int := (receivedAmount : Int) - (spentAmount : Int)
      renderLovelaceAsAda netAmount.natAbs

/-- Modelled from the spec: the sum of the `lovelace` quantities of all
entries whose address equals the target address, counting every `lovelace`
amount entry ("sum the native-asset quantity of all outputs paid to that
address"). -/
def specLovelaceSum (entries : List UTXOEntry) (address : String) : Nat :=
  (((entries.filter (fun e => e.address == address)).map
      (fun e => ((e.amount.filter (fun a => a.unit == "lovelace")).map
        (fun a => a.quantity)).sum)).sum)

/-! ## Transaction metadata (`extractMessageFromMetadata`) and the memo
written by `sendAda` (wallet page, metadata block) -/

/-- The `json_metadata` value of a metadata entry, restricted to the shapes
the code distinguishes: a string, an object with a `msg` array field, any
other truthy object, or a falsy value (`null`/`undefined`). -/
inductive JsonMeta where
  | jstring (s : String)
  | jobjMsg (msgs : List String)
  | jobjOther
  | jnull
  deriving DecidableEq, Repr

/-- JavaScript truthiness of a `json_metadata` value: the empty string and
`null`/`undefined` are falsy, every other value here is truthy. -/
def jsTruthyMeta : JsonMeta → Bool
  | .jstring s => !(s == "")
  | .jobjMsg _ => true
  | .jobjOther => true
  | .jnull => false

/-- One entry of a transaction metadata list. -/
structure MetaEntry where
  label : String
  json_metadata : JsonMeta
  deriving DecidableEq, Repr

/-- `extractMessageFromMetadata`: scan the metadata list; at the first entry
labelled `674` with truthy `json_metadata` that either carries a `msg` array
(joined with spaces) or is itself a string, return that message; otherwise
keep scanning, and return nothing at the end. -/
def extractMessageFromMetadata : List MetaEntry → Option String
  | [] => none
  | m :: rest =>
      if m.label == "674" && jsTruthyMeta m.json_metadata then
        match m.json_metadata with
        | .jobjMsg msgs => some (String.intercalate " " msgs)
        | .jstring s => some s
        | _ => extractMessageFromMetadata rest
      else
        extractMessageFromMetadata rest

/-- The metadata attached by `sendAda` (wallet page): when the trimmed
message is non-empty, label `674` carries the object with a singleton `msg`
array holding the trimmed message; otherwise no metadata is set. -/
def txMetadataFor (sendMessage : String) : Option MetaEntry :=
  if !(jsTrim sendMessage == "") then
    some { label := "674", json_metadata := .jobjMsg [jsTrim sendMessage] }
  else
    none

/-! ## Parsed transactions and `fetchAddressTransactions` (blockchain
utilities) -/

/-- The status field of the `ParsedTransaction`/`Transaction` interfaces. -/
inductive TxStatus where
  | success
  | failed
  | pending
  deriving DecidableEq, Repr

/-- The `ParsedTransaction` interface of the blockchain utilities file. -/
structure ParsedTransaction where
  id : String
  hash : String
  timestamp : Nat
  amount : String
  recipient : Option String
  sender : Option String
  message : Option String
  status : TxStatus
  fees : String
  network : String
  blockHeight : Nat
  confirmations : Option Nat
  errorMessage : Option String
  deriving DecidableEq, Repr

/-- One element of the address-transactions listing the explorer returns
(`tx_hash`, `block_time`, `block_height` are the fields the code reads). -/
structure RawAddressTx where
  tx_hash : String
  block_time : Nat
  block_height : Nat
  deriving DecidableEq, Repr

/-- The fields of the transaction details response that the code reads
(`fees` as the natural number `parseInt` yields on the digit string). -/
structure TxDetailsData where
  fees : Nat
  deriving DecidableEq, Repr

/-- The per-transaction data gathered inside the loop of
`fetchAddressTransactions`: each awaited call's outcome is carried
explicitly (`fetchTransactionMetadata` already returns `[]` on its own
errors, so it is a plain list). -/
structure PerTxData where
  raw : RawAddressTx
  details : Except String TxDetailsData
  txMetadata : List MetaEntry
  utxos : Except String TxUTXOs
  currentHeight : Except String Nat
  deriving Repr

/-- The body of the per-transaction `try` block of
`fetchAddressTransactions`: a throwing call (details fetch or current block
height) makes the `catch` skip this transaction; otherwise the pushed
`ParsedTransaction` hard-codes `status: 'success'`, uses
`calculateAccurateTransactionAmount` for the amount, the placeholder
recipient/sender helpers, and the metadata message. -/
def parseOneTx (network address : String) (d : PerTxData) : Option ParsedTransaction :=
  match d.details, d.currentHeight with
  | .ok det, .ok curHeight =>
      some { id := d.raw.tx_hash
             hash := d.raw.tx_hash
             timestamp := d.raw.block_time * 1000
             amount := calculateAccurateTransactionAmount d.utxos address
             recipient := some "Unknown Recipient"
             sender := some address
             message := extractMessageFromMetadata d.txMetadata
             status := .success
             fees := renderLovelaceAsAda det.fees
             network := network
             blockHeight := d.raw.block_height
             confirmations := some (curHeight - d.raw.block_height)
             errorMessage := none }
  | _, _ => none

/-- `fetchAddressTransactions` after a successful listing fetch: the parse
loop over the listed transactions, skipping each one whose per-transaction
calls threw. -/
def fetchAddressTransactions (network address : String)
    (txs : List PerTxData) : List ParsedTransaction :=
  txs.filterMap (parseOneTx network address)

/-! ## Mock data and the Blockfrost availability check (blockchain
utilities), and `fetchBlockchainTransactions` (dashboard page) -/

/-- `getMockTransactions`: the nine hard-coded payment scenarios, with
`Date.now()` passed in as `currentTime` (milliseconds). -/
def getMockTransactions (address : String) (currentTime : Nat) : List ParsedTransaction :=
  [ { id := "payment_001"
      hash := "a1b2c3d4e5f6789012345678901234567890123456789012345678901234abcd"
      timestamp := currentTime - 3600000
      amount := "25.0"
      recipient := some "addr_test1qpw3sjcca3w0lkqfqfmu8me4m9vz4g2z8kqlu9l2j8h4z9kx7l8f9"
      sender := some address
      message := some "Payment for coffee and lunch"
      status := .success
      fees := "0.2"
      network := "preprod"
      blockHeight := 98765
      confirmations := some 15
      errorMessage := none },
    { id := "payment_002"
      hash := "b2c3d4e5f67890123456789012345678901234567890123456789012345bcde"
      timestamp := currentTime - 7200000
      amount := "50.0"
      recipient := some "addr_test1qqz4w3m6r8t9y5u7i1o3p4a5s6d7f8g9h0j2k3l4m5n6b8c9d0e1f2"
      sender := some address
      message := some "Rent payment for this month"
      status := .success
      fees := "0.18"
      network := "preprod"
      blockHeight := 98760
      confirmations := some 20
      errorMessage := none },
    { id := "payment_003"
      hash := "c3d4e5f678901234567890123456789012345678901234567890123456cdef"
      timestamp := currentTime - 86400000
      amount := "5.5"
      recipient := some "addr_test1qr5t6y7u8i9o0p1q2w3e4r5t6y7u8i9o0p1q2w3e4r5t6y7u8i9o0"
      sender := some address
      message := some "Gift for birthday"
      status := .success
      fees := "0.15"
      network := "preprod"
      blockHeight := 98650
      confirmations := some 120
      errorMessage := none },
    { id := "payment_004"
      hash := "d4e5f67890123456789012345678901234567890123456789012345678def0"
      timestamp := currentTime - 172800000
      amount := "15.75"
      recipient := some "addr_test1qqs6d7f8g9h0j1k2l3m4n5b6v7c8x9z0a1s2d3f4g5h6j7k8l9m0"
      sender := some address
      message := some "Freelance work payment"
      status := .success
      fees := "0.22"
      network := "preprod"
      blockHeight := 98500
      confirmations := some 280
      errorMessage := none },
    { id := "payment_005"
      hash := "e5f6789012345678901234567890123456789012345678901234567890ef01"
      timestamp := currentTime - 259200000
      amount := "8.25"
      recipient := some "addr_test1qqg7h8j9k0l1m2n3b4v5c6x7z8a9s0d1f2g3h4j5k6l7m8n9b0v1"
      sender := some address
      message := some "Dinner at restaurant"
      status := .success
      fees := "0.17"
      network := "preprod"
      blockHeight := 98400
      confirmations := some 380
      errorMessage := none },
    { id := "payment_006"
      hash := "f67890123456789012345678901234567890123456789012345678901234f012"
      timestamp := currentTime - 345600000
      amount := "100.0"
      recipient := some "addr_test1qqx8z9a0s1d2f3g4h5j6k7l8m9n0b1v2c3x4z5a6s7d8f9g0h1j2k3"
      sender := some address
      message := some "Investment in crypto portfolio"
      status := .success
      fees := "0.25"
      network := "preprod"
      blockHeight := 98300
      confirmations := some 480
      errorMessage := none },
    { id := "received_001"
      hash := "789012345678901234567890123456789012345678901234567890123456780"
      timestamp := currentTime - 432000000
      amount := "75.0"
      recipient := some address
      sender := some "addr_test1qqa9s0d1f2g3h4j5k6l7m8n9b0v1c2x3z4a5s6d7f8g9h0j1k2l3m4"
      message := some "Salary payment received"
      status := .success
      fees := "0.19"
      network := "preprod"
      blockHeight := 98200
      confirmations := some 580
      errorMessage := none },
    { id := "payment_007"
      hash := "890123456789012345678901234567890123456789012345678901234567890"
      timestamp := currentTime - 518400000
      amount := "3.5"
      recipient := some "addr_test1qqb0v1c2x3z4a5s6d7f8g9h0j1k2l3m4n5b6v7c8x9z0a1s2d3f4g5"
      sender := some address
      message := some "Tip for delivery"
      status := .success
      fees := "0.14"
      network := "preprod"
      blockHeight := 98100
      confirmations := some 680
      errorMessage := none },
    { id := "failed_001"
      hash := "901234567890123456789012345678901234567890123456789012345678901"
      timestamp := currentTime - 604800000
      amount := "20.0"
      recipient := some "addr_test1qqc1x2z3a4s5d6f7g8h9j0k1l2m3n4b5v6c7x8z9a0s1d2f3g4h5j6"
      sender := some address
      message := some "Testing transaction - failed"
      status := .failed
      fees := "0.2"
      network := "preprod"
      blockHeight := 98000
      confirmations := some 0
      errorMessage := some "Insufficient funds in wallet" } ]

/-- `isBlockfrostAvailable`: the environment variable
`NEXT_PUBLIC_BLOCKFROST_API_KEY` is passed in as an optional string; the
check `!!(key && key !== 'preprod_mock' && key.startsWith('preprod'))`. -/
def isBlockfrostAvailable (preprodKey : Option String) : Bool :=
  match preprodKey with
  | none => false
  | some k => !(k == "") && !(k == "preprod_mock") && k.startsWith "preprod"

/-- The dashboard page's `Transaction` interface (the fields the mapping in
`fetchBlockchainTransactions` fills). -/
structure DashboardTx where
  id : String
  timestamp : Nat
  amount : String
  recipient : String
  sender : Option String
  message : Option String
  status : TxStatus
  txHash : Option String
  hash : Option String
  network : String
  fees : Option String
  blockHeight : Option Nat
  confirmations : Option Nat
  deriving DecidableEq, Repr

/-- The element mapping `fetchBlockchainTransactions` applies to each fetched
or mock `ParsedTransaction` (the two branches use the same field mapping,
including `recipient: tx.recipient || 'Unknown'`). -/
def parsedToDashboard (tx : ParsedTransaction) : DashboardTx :=
  { id := tx.hash
    timestamp := tx.timestamp
    amount := tx.amount
    recipient := jsOrElse tx.recipient "Unknown"
    sender := tx.sender
    message := tx.message
    status := tx.status
    txHash := some tx.hash
    hash := some tx.hash
    network := "preprod"
    fees := some tx.fees
    blockHeight := some tx.blockHeight
    confirmations := tx.confirmations }

/-- `fetchBlockchainTransactions` (dashboard page), data-source selection:
with Blockfrost available the list fetched from the explorer is used,
otherwise the mock data; either list goes through the same field mapping. -/
def fetchBlockchainTransactions (preprodKey : Option String)
    (fetchedTxs : List ParsedTransaction) (walletAddress : String)
    (currentTime : Nat) : List DashboardTx :=
  if isBlockfrostAvailable preprodKey then
    fetchedTxs.map parsedToDashboard
  else
    (getMockTransactions walletAddress currentTime).map parsedToDashboard

/-! ## Local transaction history (`saveTransaction`, wallet page) -/

/-- A stored transaction record of the localStorage history (the fields the
wallet page writes: the id/timestamp/network added by `saveTransaction`
plus the caller-supplied fields). -/
structure LocalTxRecord where
  id : String
  timestamp : Nat
  network : String
  amount : String
  recipient : String
  message : Option String
  status : TxStatus
  errorMessage : Option String
  txHash : Option String
  deriving DecidableEq, Repr

/-- The list update performed by `saveTransaction`: `unshift` the new record
to the front, then keep only the first 100 entries when the length exceeds
100 (`splice(100)`). -/
def saveTransaction (stored : List LocalTxRecord)
    (newTransaction : LocalTxRecord) : List LocalTxRecord :=
  let transactions := newTransaction :: stored
  if transactions.length > 100 then transactions.take 100 else transactions

/-! ## `sendAda` (wallet page): validation, build/sign/submit, error
handling -/

/-- JavaScript `Number.prototype.toFixed(6)` on a non-negative rational,
modelled as half-up rounding to six decimal places. -/
def ratToFixed6 (r : Rat) : String :=
  let n : Int := Rat.floor (r * 1000000 + 1 / 2)
  let m : Nat := n.toNat
  toString (m / 1000000) ++ "." ++ natPad6 (m % 1000000)

/-- The error-message refinement of the `catch` block of `sendAda`: specific
display strings for recognised wallet errors, otherwise the thrown message
itself. -/
def deriveErrorMessage (m : String) : String :=
  if jsIncludes m "UTxO Fully Depleted" then
    "Insufficient funds. Please ensure you have enough ADA to cover the transaction amount plus network fees (~2 ADA)."
  else if jsIncludes m "insufficient funds" then
    "Insufficient funds in your wallet."
  else if jsIncludes m "User declined" then
    "Transaction was cancelled by user."
  else m

/-- The environment of one `sendAda` invocation: the form state and the
outcomes of the wallet calls.  `wallet` is the truthiness of the connected
wallet object; `sendAmount` is the `parseFloat` value of `sendAmountRaw`;
the network is fixed to `preprod`.  `walletBalance` is the asset list
`wallet.getBalance()` resolved to; `buildResult`, `signResult` and
`submitResult` carry the value or thrown message of `tx.build()`,
`wallet.signTx` and `wallet.submitTx`. -/
structure SendEnv where
  wallet : Bool
  recipientAddress : String
  sendAmountRaw : String
  sendAmount : Rat
  sendMessage : String
  walletBalance : List AssetAmount
  buildResult : Except String String
  signResult : Except String String
  submitResult : Except String String

/-- The `try` block of `sendAda` up to the submitted transaction hash:
address-prefix validation, positivity of the amount, balance retrieval and
the 2-ADA buffer check, then build, sign and submit in sequence, each
`throw` becoming an `Except.error` with the thrown message. -/
def goSendAda (env : SendEnv) : Except String String :=
  if !(env.recipientAddress.startsWith "addr_test1") then
    .error "Invalid preprod address format. Address must start with \"addr_test1\""
  else if env.sendAmount ≤ 0 then
    .error "Amount must be greater than 0"
  else
    match env.walletBalance.find? (fun a => a.unit == "lovelace") with
    | none => .error "Unable to retrieve wallet balance"
    | some adaBalance =>
        let balanceInAda : Rat := (adaBalance.quantity : Rat) / 1000000
        let minRequired : Rat := env.sendAmount + 2
        if balanceInAda < minRequired then
          .error ("Insufficient balance. You have " ++ ratToFixed6 balanceInAda ++
            " ADA, but need at least " ++ ratToFixed6 minRequired ++
            " ADA (including ~2 ADA for fees)")
        else
          match env.buildResult with
          | .error e => .error e
          | .ok _unsignedTx =>
              match env.signResult with
              | .error e => .error e
              | .ok _signedTx =>
                  match env.submitResult with
                  | .error e => .error e
                  | .ok h => .ok h

/-- The argument record `sendAda` passes to `saveTransaction` on either
path. -/
structure SaveTxArg where
  amount : String
  recipient : String
  message : Option String
  status : TxStatus
  errorMessage : Option String
  txHash : Option String
  deriving DecidableEq, Repr

/-- The outcome of one `sendAda` invocation: the final `sendStatus` display
string, the submitted transaction hash (if any), and the record handed to
`saveTransaction`. -/
structure SendOutcome where
  sendStatus : String
  txHash : Option String
  saved : SaveTxArg
  deriving DecidableEq, Repr

/-- `sendAda`: the guard `if (!wallet || !recipientAddress || !sendAmount)
return;` makes the function return silently (no status change, nothing
saved, modelled as `none`) when the wallet is absent or the recipient or
amount field is empty; otherwise, on success the status becomes `success`,
the hash is stored and a `success` record is saved, and on any thrown error
the `catch` block derives a display message, sets the status to
`Error: ...` and saves a `failed` record carrying that message. -/
def sendAda (env : SendEnv) : Option SendOutcome :=
  if !env.wallet || env.recipientAddress == "" || env.sendAmountRaw == "" then
    none
  else
  some (match goSendAda env with
  | .ok h =>
      { sendStatus := "success"
        txHash := some h
        saved := { amount := env.sendAmountRaw
                   recipient := env.recipientAddress
                   message := jsOrUndef env.sendMessage
                   status := .success
                   errorMessage := none
                   txHash := some h } }
  | .error e =>
      let errorMessage := deriveErrorMessage e
      { sendStatus := "Error: " ++ errorMessage
        txHash := none
        saved := { amount := env.sendAmountRaw
                   recipient := env.recipientAddress
                   message := jsOrUndef env.sendMessage
                   status := .failed
                   errorMessage := some errorMessage
                   txHash := none } })

/-! ## AI categorization utilities (`aiCategorization.ts`) -/

/-- One entry of `AVAILABLE_CATEGORIES`. -/
structure CategoryConfig where
  name : String
  description : String
  icon : String
  color : String
  deriving DecidableEq, Repr

/-- The nine hard-coded categories the AI can choose from. -/
def AVAILABLE_CATEGORIES : List CategoryConfig :=
  [ { name := "Payments & Purchases"
      description := "Shopping, bills, invoices, retail purchases"
      icon := "💳"
      color := "bg-blue-100 border-blue-300 text-blue-800" },
    { name := "Gifts & Tips"
      description := "Gifts, donations, tips, rewards, presents"
      icon := "🎁"
      color := "bg-pink-100 border-pink-300 text-pink-800" },
    { name := "Business & Work"
      description := "Salary, work-related, business, contracts, services"
      icon := "💼"
      color := "bg-indigo-100 border-indigo-300 text-indigo-800" },
    { name := "Family & Friends"
      description := "Personal relationships, family, friends, loans"
      icon := "👨‍👩‍👧‍👦"
      color := "bg-yellow-100 border-yellow-300 text-yellow-800" },
    { name := "Food & Dining"
      description := "Restaurants, food delivery, meals, dining"
      icon := "🍽️"
      color := "bg-orange-100 border-orange-300 text-orange-800" },
    { name := "Transportation"
      description := "Travel, transport, gas, parking, rideshare"
      icon := "🚗"
      color := "bg-green-100 border-green-300 text-green-800" },
    { name := "Entertainment"
      description := "Movies, games, sports, hobbies, subscriptions"
      icon := "🎮"
      color := "bg-purple-100 border-purple-300 text-purple-800" },
    { name := "Testing & Development"
      description := "Testing, development, demo transactions"
      icon := "🧪"
      color := "bg-gray-100 border-gray-300 text-gray-800" },
    { name := "Other"
      description := "Uncategorized or unclear transactions"
      icon := "💬"
      color := "bg-gray-100 border-gray-300 text-gray-800" } ]

/-- One element of the parsed payload of a successful `/api/categorize`
response (the fields the mapping reads; `confidence` is the JSON number). -/
structure AIResult where
  transactionIndex : Nat
  category : String
  confidence : Rat
  reasoning : String
  deriving DecidableEq, Repr

/-- The `AICategory` interface. -/
structure AICategory where
  category : String
  confidence : Rat
  reasoning : String
  icon : String
  color : String
  deriving DecidableEq, Repr

/-- The `CategorizedTransaction` interface. -/
structure CategorizedTransaction where
  transactionId : String
  category : AICategory
  deriving DecidableEq, Repr

/-- The element mapping of `categorizeTransactionsWithAI` on a successful
API response: look the returned category name up in `AVAILABLE_CATEGORIES`,
fall back to the `Other` entry when it is not found (the inner lookup of
`Other` carries a non-null assertion in the source; the final literal
branch is unreachable because `Other` is in the list), keep the returned
name verbatim in the `category` field and take the icon and color from the
configuration found. -/
def convertAIResult (result : AIResult) : CategorizedTransaction :=
  let categoryConfig : CategoryConfig :=
    match AVAILABLE_CATEGORIES.find? (fun cat => cat.name == result.category) with
    | some c => c
    | none =>
        match AVAILABLE_CATEGORIES.find? (fun cat => cat.name == "Other") with
        | some c => c
        | none => { name := "Other", description := "", icon := "", color := "" }
  { transactionId := "tx_" ++ toString result.transactionIndex
    category := { category := result.category
                  confidence := result.confidence
                  reasoning := result.reasoning
                  icon := categoryConfig.icon
                  color := categoryConfig.color } }

/-- The possible outcomes of the `fetch('/api/categorize')` call and the
processing of its response: a network failure of the fetch itself, a
non-ok HTTP status, a payload reporting `success: false`, a payload whose
`data` cannot be processed as a result array, or a successful result
list. -/
inductive CategorizeOutcome where
  | fetchFailed (msg : String)
  | httpNotOk (status : Nat) (statusText : String) (body : String)
  | apiNotSuccess (error : Option String)
  | badPayload (msg : String)
  | ok (results : List AIResult)

/-- Whether the outcome throws inside the `try` block of
`categorizeTransactionsWithAI`. -/
def CategorizeOutcome.isFailure : CategorizeOutcome → Bool
  | .ok _ => false
  | _ => true

/-- The `error.message` of the exception each failing outcome raises in the
`try` block (`API error: ...` for a non-ok status, the reported error or
`API request failed` for `success: false`). -/
def categorizeFailureMessage : CategorizeOutcome → String
  | .fetchFailed msg => msg
  | .httpNotOk status statusText body =>
      "API error: " ++ toString status ++ " " ++ statusText ++ ". " ++ body
  | .apiNotSuccess error => jsOrElse error "API request failed"
  | .badPayload msg => msg
  | .ok _ => ""

/-- The fallback mapping of the `catch` block:
`messages.map((_, index) => ...)` with a 1-based `tx_` id and the `Other`
category at confidence 0, carried out with an explicit running index. -/
def fallbackList (errorMessage : String) : Nat → List String → List CategorizedTransaction
  | _, [] => []
  | index, _ :: rest =>
      { transactionId := "tx_" ++ toString (index + 1)
        category := { category := "Other"
                      confidence := 0
                      reasoning := "AI categorization failed: " ++ errorMessage
                      icon := "💬"
                      color := "bg-gray-100 border-gray-300 text-gray-800" } }
        :: fallbackList errorMessage (index + 1) rest

/-- `categorizeTransactionsWithAI`: an empty message list returns
immediately (the Boolean records whether the API request was made); a
successful response is converted element-wise; every failing outcome is
caught and replaced by the fallback list. -/
def categorizeTransactionsWithAI (messages : List String)
    (outcome : CategorizeOutcome) : List CategorizedTransaction × Bool :=
  if messages.length == 0 then
    ([], false)
  else
    match outcome with
    | .ok aiResults => (aiResults.map convertAIResult, true)
    | failure => (fallbackList (categorizeFailureMessage failure) 0 messages, true)

/-- The AI API-key environment variables `getAvailableProviders` reads. -/
structure AIEnv where
  aiKey : Option String
  openaiKey : Option String
  geminiKey : Option String
  anthropicKey : Option String
  groqKey : Option String

/-- `getAvailableProviders`: push each provider whose key is configured,
and fall back to `openai` when the list would be empty. -/
def getAvailableProviders (env : AIEnv) : List String :=
  let providers : List String :=
    (if jsTruthyOpt env.aiKey || jsTruthyOpt env.openaiKey then ["openai"] else []) ++
    (if jsTruthyOpt env.geminiKey then ["gemini"] else []) ++
    (if jsTruthyOpt env.anthropicKey then ["anthropic"] else []) ++
    (if jsTruthyOpt env.groqKey || jsTruthyOpt env.aiKey then ["groq"] else [])
  if providers.length == 0 then providers ++ ["openai"] else providers

/-- `isAICategorationAvailable` (name as in the source): whether the
provider list is non-empty. -/
def isAICategorationAvailable (env : AIEnv) : Bool :=
  decide (0 < (getAvailableProviders env).length)

/-! ## Helper lemmas -/

/-- Joining a singleton list with spaces is the element itself. -/
theorem intercalate_singleton (m : String) : String.intercalate " " [m] = m := rfl

/-- `saveTransaction` always produces the first 100 elements of the new
record pushed onto the stored list. -/
theorem saveTransaction_eq_take (stored : List LocalTxRecord) (t : LocalTxRecord) :
    saveTransaction stored t = (t :: stored).take 100 := by
  simp only [saveTransaction]
  split
  · rfl
  · next h =>
      rw [List.take_of_length_le]
      omega

/-! ## C2: rolling 100-entry history buffer -/

/-- C2: `saveTransaction` stores the new transaction first, keeps the
previous entries in their prior order (truncated to the first 99), never
exceeds 100 entries, and drops the oldest entry when the previous list
already holds 100. -/
theorem saveTransaction_rollingBuffer (stored : List LocalTxRecord) (t : LocalTxRecord) :
    (saveTransaction stored t).head? = some t ∧
    (saveTransaction stored t).tail = stored.take 99 ∧
    (saveTransaction stored t).length ≤ 100 ∧
    (stored.length < 100 → saveTransaction stored t = t :: stored) ∧
    (stored.length = 100 → saveTransaction stored t = t :: stored.dropLast) := by
  rw [saveTransaction_eq_take]
  refine ⟨?_, ?_, ?_, ?_, ?_⟩
  · rw [List.take_cons (by norm_num)]
    rfl
  · rw [List.take_cons (by norm_num)]
    rfl
  · rw [List.length_take]
    omega
  · intro h
    rw [List.take_cons (by norm_num), List.take_of_length_le (by omega)]
  · intro h
    rw [List.take_cons (by norm_num), List.dropLast_eq_take, h]

/-- Witness for C2 at a concrete 100-entry history. -/
theorem saveTransaction_rollingBuffer_witness :
    let t : LocalTxRecord :=
      { id := "new", timestamp := 5, network := "preprod", amount := "1",
        recipient := "r", message := none, status := .success,
        errorMessage := none, txHash := none }
    let old : LocalTxRecord :=
      { id := "old", timestamp := 1, network := "preprod", amount := "2",
        recipient := "r", message := none, status := .failed,
        errorMessage := some "e", txHash := none }
    let stored := List.replicate 100 old
    (saveTransaction stored t).head? = some t ∧
    (saveTransaction stored t).tail = stored.take 99 ∧
    (saveTransaction stored t).length ≤ 100 ∧
    (stored.length < 100 → saveTransaction stored t = t :: stored) ∧
    (stored.length = 100 → saveTransaction stored t = t :: stored.dropLast) := by
  intro t old stored
  exact saveTransaction_rollingBuffer stored t

/-! ## C4: memo round-trip through metadata label 674 -/

/-- C4 counterexample: a metadata list that does contain an entry labelled
`674` with `json_metadata` `{"msg": ["hello"]}` but whose extraction yields
the earlier string-valued `674` entry instead of `hello`. -/
theorem extractMessage_shadowed_counterexample :
    ¬ (extractMessageFromMetadata
        [{ label := "674", json_metadata := .jstring "x" },
         { label := "674", json_metadata := .jobjMsg ["hello"] }] = some "hello") := by
  decide

/-- C4 (amended): for every non-empty trimmed message, the metadata written
at send time under label `674` is the object with the singleton `msg` array;
extraction from a metadata list whose `674`-labelled `{"msg": [m]}` entry is
preceded by no other `674`-labelled entry yields exactly `m`; and extraction
from a list with no `674`-labelled entry yields no message. -/
theorem memo_roundTrip (m : String) (pre post : List MetaEntry)
    (htrim : jsTrim m = m) (hne : ¬ m = "")
    (hpre : ∀ e ∈ pre, ¬ e.label = "674") :
    txMetadataFor m = some { label := "674", json_metadata := .jobjMsg [m] } ∧
    extractMessageFromMetadata
      (pre ++ { label := "674", json_metadata := JsonMeta.jobjMsg [m] } :: post) = some m ∧
    (∀ md : List MetaEntry, (∀ e ∈ md, ¬ e.label = "674") →
      extractMessageFromMetadata md = none) := by
  refine ⟨?_, ?_, ?_⟩
  · unfold txMetadataFor
    rw [htrim]
    simp [hne]
  · induction pre with
    | nil =>
        simp only [List.nil_append, extractMessageFromMetadata, jsTruthyMeta]
        rw [intercalate_singleton]
        rfl
    | cons e rest ih =>
        have he : ¬ e.label = "674" := hpre e (by simp)
        simp only [List.cons_append, extractMessageFromMetadata]
        rw [if_neg (by simp [he])]
        exact ih (fun x hx => hpre x (by simp [hx]))
  · intro md hmd
    induction md with
    | nil => rfl
    | cons e rest ih =>
        have he : ¬ e.label = "674" := hmd e (by simp)
        simp only [extractMessageFromMetadata]
        rw [if_neg (by simp [he])]
        exact ih (fun x hx => hmd x (by simp [hx]))

/-- Witness for C4 at a concrete message and metadata list. -/
theorem memo_roundTrip_witness :
    txMetadataFor "hello" = some { label := "674", json_metadata := .jobjMsg ["hello"] } ∧
    extractMessageFromMetadata
      [{ label := "721", json_metadata := JsonMeta.jobjOther },
       { label := "674", json_metadata := JsonMeta.jobjMsg ["hello"] }] = some "hello" ∧
    (∀ md : List MetaEntry, (∀ e ∈ md, ¬ e.label = "674") →
      extractMessageFromMetadata md = none) := by
  have h := memo_roundTrip "hello"
    [{ label := "721", json_metadata := JsonMeta.jobjOther }] []
    (by decide) (by decide) (by decide)
  exact h

/-! ## C6: amount-calculation failures degrade to "0" -/

/-- C6: on any error from the UTXO fetch, `calculateAccurateTransactionAmount`
returns the string `0` instead of throwing, and the per-transaction parse of
`fetchAddressTransactions` still produces its transaction (with amount `0`)
rather than being aborted. -/
theorem calcAmount_error_returns_zero (e address : String) :
    calculateAccurateTransactionAmount (Except.error e) address = "0" ∧
    ∀ (network : String) (raw : RawAddressTx) (det : TxDetailsData)
      (mdl : List MetaEntry) (h : Nat),
      parseOneTx network address
        { raw := raw, details := .ok det, txMetadata := mdl,
          utxos := .error e, currentHeight := .ok h } =
        some { id := raw.tx_hash
               hash := raw.tx_hash
               timestamp := raw.block_time * 1000
               amount := "0"
               recipient := some "Unknown Recipient"
               sender := some address
               message := extractMessageFromMetadata mdl
               status := .success
               fees := renderLovelaceAsAda det.fees
               network := network
               blockHeight := raw.block_height
               confirmations := some (h - raw.block_height)
               errorMessage := none } :=
  ⟨rfl, fun _ _ _ _ _ => rfl⟩

/-! ## C7: the configured key alone decides real explorer vs mock data -/

/-- C7: `isBlockfrostAvailable` holds exactly when the key is set, differs
from the literal `preprod_mock` and starts with `preprod`; and whenever it
is false the dashboard's `fetchBlockchainTransactions` sources its list from
`getMockTransactions`. -/
theorem blockfrost_key_gates_data_source (key : Option String)
    (fetched : List ParsedTransaction) (walletAddress : String) (currentTime : Nat) :
    (isBlockfrostAvailable key = true ↔
      ∃ k, key = some k ∧ ¬ k = "preprod_mock" ∧ k.startsWith "preprod" = true) ∧
    (isBlockfrostAvailable key = false →
      fetchBlockchainTransactions key fetched walletAddress currentTime =
        (getMockTransactions walletAddress currentTime).map parsedToDashboard) := by
  constructor
  · constructor
    · intro h
      match key with
      | none => simp [isBlockfrostAvailable] at h
      | some k =>
          refine ⟨k, rfl, ?_, ?_⟩
          · intro hk
            subst hk
            simp [isBlockfrostAvailable] at h
          · simp only [isBlockfrostAvailable, Bool.and_eq_true] at h
            exact h.2
    · rintro ⟨k, rfl, hmock, hpre⟩
      have hk : ¬ k = "" := by
        intro h0
        subst h0
        exact absurd hpre (by decide)
      simp [isBlockfrostAvailable, hpre, hk, hmock]
  · intro h
    unfold fetchBlockchainTransactions
    rw [if_neg (by simp [h])]

/-- Witness for C7 with no key configured. -/
theorem blockfrost_key_gates_data_source_witness :
    (isBlockfrostAvailable none = true ↔
      ∃ k, (none : Option String) = some k ∧ ¬ k = "preprod_mock" ∧
        k.startsWith "preprod" = true) ∧
    (isBlockfrostAvailable none = false →
      fetchBlockchainTransactions none [] "addr_test1w" 999999999 =
        (getMockTransactions "addr_test1w" 999999999).map parsedToDashboard) :=
  blockfrost_key_gates_data_source none [] "addr_test1w" 999999999

/-! ## C9: the provider list is never empty -/

/-- C9: `getAvailableProviders` never returns an empty list — with no AI
API key configured it still pushes `openai` — and therefore
`isAICategorationAvailable` is true for every configuration. -/
theorem providers_never_empty (env : AIEnv) :
    (getAvailableProviders env).isEmpty = false ∧
    isAICategorationAvailable env = true ∧
    (env.aiKey = none → env.openaiKey = none → env.geminiKey = none →
      env.anthropicKey = none → env.groqKey = none →
      getAvailableProviders env = ["openai"]) := by
  have key : ∀ l : List String,
      (if (l.length == 0) = true then l ++ ["openai"] else l).isEmpty = false := by
    intro l
    split
    · cases l with
      | nil => rfl
      | cons a t => rfl
    · next h =>
        cases l with
        | nil => simp at h
        | cons a t => rfl
  have hne : (getAvailableProviders env).isEmpty = false := by
    unfold getAvailableProviders
    exact key _
  refine ⟨hne, ?_, ?_⟩
  · unfold isAICategorationAvailable
    rw [decide_eq_true_eq]
    cases hp : getAvailableProviders env with
    | nil => rw [hp] at hne; simp at hne
    | cons a l => simp
  · intro h1 h2 h3 h4 h5
    unfold getAvailableProviders
    rw [h1, h2, h3, h4, h5]
    rfl

/-! ## C10: unrecognized AI category names keep their name but take the
icon and color of `Other` -/

/-- C10: the converted result keeps the AI-returned category name verbatim;
when the name is found in `AVAILABLE_CATEGORIES` the icon and color come
from the found entry, and when it matches none of the nine entries they
come from the `Other` entry. -/
theorem convertAIResult_categoryConfig (result : AIResult) :
    (convertAIResult result).transactionId = "tx_" ++ toString result.transactionIndex ∧
    (convertAIResult result).category.category = result.category ∧
    (convertAIResult result).category.confidence = result.confidence ∧
    (convertAIResult result).category.reasoning = result.reasoning ∧
    (∀ c, AVAILABLE_CATEGORIES.find? (fun cat => cat.name == result.category) = some c →
      (convertAIResult result).category.icon = c.icon ∧
      (convertAIResult result).category.color = c.color) ∧
    ((∀ c ∈ AVAILABLE_CATEGORIES, ¬ c.name = result.category) →
      (convertAIResult result).category.icon = "💬" ∧
      (convertAIResult result).category.color = "bg-gray-100 border-gray-300 text-gray-800") := by
  refine ⟨rfl, rfl, rfl, rfl, ?_, ?_⟩
  · intro c hc
    unfold convertAIResult
    rw [hc]
    exact ⟨rfl, rfl⟩
  · intro hnone
    have hfind : AVAILABLE_CATEGORIES.find?
        (fun cat => cat.name == result.category) = none := by
      rw [List.find?_eq_none]
      intro c hc
      simp only [beq_eq_false_iff_ne, ne_eq, Bool.not_eq_true]
      exact fun h => hnone c hc h
    unfold convertAIResult
    rw [hfind]
    exact ⟨rfl, rfl⟩

/-- An AI result carrying a category name outside the nine configured
ones. -/
def mysteryAIResult : AIResult :=
  { transactionIndex := 1, category := "Mystery", confidence := 0, reasoning := "r" }

/-- Witness for C10 at an unrecognized category name. -/
theorem convertAIResult_categoryConfig_witness :
    (convertAIResult mysteryAIResult).category.icon = "💬" ∧
    (convertAIResult mysteryAIResult).category.color =
      "bg-gray-100 border-gray-300 text-gray-800" :=
  (convertAIResult_categoryConfig mysteryAIResult).2.2.2.2.2 (by decide)

/-! ## C3: AI categorization failures degrade to per-message `Other`
results -/

/-- Every element of the fallback list carries the `Other` category at
confidence 0 with a reasoning string extending `AI categorization failed`. -/
theorem fallbackList_mem (errorMessage : String) :
    ∀ (start : Nat) (messages : List String),
      (fallbackList errorMessage start messages).length = messages.length ∧
      ∀ ct ∈ fallbackList errorMessage start messages,
        ct.category.category = "Other" ∧ ct.category.confidence = 0 ∧
        ∃ rest, ct.category.reasoning = "AI categorization failed" ++ rest := by
  intro start messages
  induction messages generalizing start with
  | nil => exact ⟨rfl, by intro ct h; cases h⟩
  | cons m rest ih =>
      refine ⟨?_, ?_⟩
      · simpa [fallbackList] using (ih (start + 1)).1
      · intro ct hct
        cases hct with
        | head => exact ⟨rfl, rfl, ⟨": " ++ errorMessage, rfl⟩⟩
        | tail b hmem => exact (ih (start + 1)).2 ct hmem

/-- C3: an empty message list yields an empty result without any API
request; on every failing outcome the function does not throw but returns
one `Other`-categorized result per input message, at confidence 0 and with
a reasoning string beginning with `AI categorization failed`. -/
theorem categorize_failure_fallback (messages : List String) (outcome : CategorizeOutcome) :
    categorizeTransactionsWithAI [] outcome = ([], false) ∧
    (¬ messages = [] → outcome.isFailure = true →
      (categorizeTransactionsWithAI messages outcome).1.length = messages.length ∧
      ∀ ct ∈ (categorizeTransactionsWithAI messages outcome).1,
        ct.category.category = "Other" ∧ ct.category.confidence = 0 ∧
        ∃ rest, ct.category.reasoning = "AI categorization failed" ++ rest) := by
  constructor
  · rfl
  · intro hne hfail
    have hlen : (messages.length == 0) = false := by
      cases messages with
      | nil => exact absurd rfl hne
      | cons m rest => rfl
    cases outcome with
    | ok results => simp [CategorizeOutcome.isFailure] at hfail
    | fetchFailed msg =>
        unfold categorizeTransactionsWithAI
        rw [hlen]
        exact fallbackList_mem _ 0 messages
    | httpNotOk status statusText body =>
        unfold categorizeTransactionsWithAI
        rw [hlen]
        exact fallbackList_mem _ 0 messages
    | apiNotSuccess error =>
        unfold categorizeTransactionsWithAI
        rw [hlen]
        exact fallbackList_mem _ 0 messages
    | badPayload msg =>
        unfold categorizeTransactionsWithAI
        rw [hlen]
        exact fallbackList_mem _ 0 messages

/-- Witness for C3 at a concrete failing request. -/
theorem categorize_failure_fallback_witness :
    (categorizeTransactionsWithAI ["coffee"] (.httpNotOk 500 "Internal Server Error" "boom")).1.length = ["coffee"].length ∧
    ∀ ct ∈ (categorizeTransactionsWithAI ["coffee"] (.httpNotOk 500 "Internal Server Error" "boom")).1,
      ct.category.category = "Other" ∧ ct.category.confidence = 0 ∧
      ∃ rest, ct.category.reasoning = "AI categorization failed" ++ rest :=
  (categorize_failure_fallback ["coffee"]
    (.httpNotOk 500 "Internal Server Error" "boom")).2 (by decide) rfl

/-! ## C8: explorer-backed history hard-codes status `success` -/

/-- C8: every transaction produced by `fetchAddressTransactions` has status
`success`; the `failed` and `pending` states are never produced on this
path. -/
theorem fetchAddressTransactions_all_success (network address : String)
    (txs : List PerTxData) (p : ParsedTransaction)
    (hp : p ∈ fetchAddressTransactions network address txs) :
    p.status = .success := by
  unfold fetchAddressTransactions at hp
  rw [List.mem_filterMap] at hp
  obtain ⟨d, _, hd⟩ := hp
  unfold parseOneTx at hd
  split at hd
  · cases hd
    rfl
  · cases hd

/-- Concrete per-transaction data for the C8 witness (the UTXO fetch of this
transaction errored, so its amount degrades to `0`). -/
def c8TxData : PerTxData :=
  { raw := { tx_hash := "h1", block_time := 7, block_height := 5 }
    details := .ok { fees := 172805 }
    txMetadata := []
    utxos := .error "boom"
    currentHeight := .ok 12 }

/-- The transaction `fetchAddressTransactions` parses out of `c8TxData`. -/
def c8ParsedTx : ParsedTransaction :=
  { id := "h1", hash := "h1", timestamp := 7000, amount := "0"
    recipient := some "Unknown Recipient", sender := some "addr1x"
    message := none, status := .success, fees := "0.172805"
    network := "preprod", blockHeight := 5, confirmations := some 7
    errorMessage := none }

/-- Witness for C8 at the concrete fetched transaction. -/
theorem fetchAddressTransactions_all_success_witness :
    c8ParsedTx.status = .success :=
  fetchAddressTransactions_all_success "preprod" "addr1x" [c8TxData] c8ParsedTx
    (by decide)

/-! ## C5: every `sendAda` failure is caught, displayed and logged, and
nothing is submitted -/

/-- Splitting the `Error: ` display prefix. -/
theorem errorDisplayPrefix (d : String) :
    "Error: " ++ d = "Error:" ++ (" " ++ d) := by
  rw [← String.append_assoc]
  have hsp : ("Error:" ++ " " : String) = "Error: " := by decide
  rw [hsp]

/-- A successful run of the `sendAda` try block passed every validation and
every wallet call. -/
theorem goSendAda_ok_inv (env : SendEnv) (v : String)
    (hg : goSendAda env = Except.ok v) :
    env.recipientAddress.startsWith "addr_test1" = true ∧
    ¬ env.sendAmount ≤ 0 ∧
    (∀ a, env.walletBalance.find? (fun x => x.unit == "lovelace") = some a →
      ¬ (a.quantity : Rat) / 1000000 < env.sendAmount + 2) ∧
    (∀ msg, ¬ env.buildResult = Except.error msg) ∧
    (∀ msg, ¬ env.signResult = Except.error msg) ∧
    (∀ msg, ¬ env.submitResult = Except.error msg) := by
  unfold goSendAda at hg
  by_cases h1 : env.recipientAddress.startsWith "addr_test1" = true
  case neg => rw [if_pos (by simp [h1])] at hg; cases hg
  rw [if_neg (by simp [h1])] at hg
  by_cases h2 : env.sendAmount ≤ 0
  · rw [if_pos h2] at hg; cases hg
  rw [if_neg h2] at hg
  rcases hf : env.walletBalance.find? (fun x => x.unit == "lovelace") with _ | a
  · rw [hf] at hg; cases hg
  rw [hf] at hg
  dsimp only at hg
  by_cases h3 : (a.quantity : Rat) / 1000000 < env.sendAmount + 2
  · rw [if_pos h3] at hg; cases hg
  rw [if_neg h3] at hg
  rcases hb : env.buildResult with eb | vb <;> rw [hb] at hg
  · cases hg
  rcases hs2 : env.signResult with es | vs2 <;> rw [hs2] at hg
  · cases hg
  rcases ht : env.submitResult with et | vt <;> rw [ht] at hg
  · cases hg
  refine ⟨h1, h2, ?_, ?_, ?_, ?_⟩
  · intro a2 ha2
    rw [hf] at ha2
    cases ha2
    exact h3
  · intro msg hmsg
    exact Except.noConfusion hmsg
  · intro msg hmsg
    exact Except.noConfusion hmsg
  · intro msg hmsg
    exact Except.noConfusion hmsg

/-- C5: past the early-return guard (wallet present, recipient and amount
fields non-empty), whenever the recipient address lacks the `addr_test1`
prefix, the parsed amount is non-positive, the wallet's lovelace balance is
below amount + 2 ADA, or the build/sign/submit step throws, `sendAda`
catches the exception: the final status is `Error:` followed by the derived
message, a `failed` record carrying that message is saved to the local
history, and no transaction hash is produced. -/
theorem sendAda_failure_paths (env : SendEnv)
    (hw : env.wallet = true)
    (hr : ¬ env.recipientAddress = "")
    (hra : ¬ env.sendAmountRaw = "")
    (h : env.recipientAddress.startsWith "addr_test1" = false ∨
         env.sendAmount ≤ 0 ∨
         (∃ a, env.walletBalance.find? (fun x => x.unit == "lovelace") = some a ∧
            (a.quantity : Rat) / 1000000 < env.sendAmount + 2) ∨
         (∃ msg, env.buildResult = Except.error msg) ∨
         (∃ msg, env.signResult = Except.error msg) ∨
         (∃ msg, env.submitResult = Except.error msg)) :
    ∃ e, goSendAda env = Except.error e ∧
      sendAda env =
        some { sendStatus := "Error: " ++ deriveErrorMessage e
               txHash := none
               saved := { amount := env.sendAmountRaw
                          recipient := env.recipientAddress
                          message := jsOrUndef env.sendMessage
                          status := .failed
                          errorMessage := some (deriveErrorMessage e)
                          txHash := none } } ∧
      (∃ o rest, sendAda env = some o ∧ o.sendStatus = "Error:" ++ rest) := by
  have hguard : ¬ ((!env.wallet || env.recipientAddress == "" ||
      env.sendAmountRaw == "") = true) := by
    simp [hw, hr, hra]
  rcases hg : goSendAda env with e | v
  · have hsend : sendAda env =
        some { sendStatus := "Error: " ++ deriveErrorMessage e
               txHash := none
               saved := { amount := env.sendAmountRaw
                          recipient := env.recipientAddress
                          message := jsOrUndef env.sendMessage
                          status := .failed
                          errorMessage := some (deriveErrorMessage e)
                          txHash := none } } := by
      unfold sendAda
      rw [if_neg hguard, hg]
    exact ⟨e, rfl, hsend,
      ⟨_, " " ++ deriveErrorMessage e, hsend, errorDisplayPrefix (deriveErrorMessage e)⟩⟩
  · exfalso
    obtain ⟨i1, i2, i3, i4, i5, i6⟩ := goSendAda_ok_inv env v hg
    rcases h with h1 | h2 | h3 | h4 | h5 | h6
    · rw [i1] at h1
      cases h1
    · exact i2 h2
    · obtain ⟨a, ha, hlt⟩ := h3
      exact i3 a ha hlt
    · obtain ⟨msg, hmsg⟩ := h4
      exact i4 msg hmsg
    · obtain ⟨msg, hmsg⟩ := h5
      exact i5 msg hmsg
    · obtain ⟨msg, hmsg⟩ := h6
      exact i6 msg hmsg

/-- The environment of the C5 witness: a connected wallet, non-empty form
fields, and a recipient address without the `addr_test1` prefix. -/
def c5Env : SendEnv :=
  { wallet := true
    recipientAddress := "bob"
    sendAmountRaw := "5"
    sendAmount := 5
    sendMessage := ""
    walletBalance := [{ unit := "lovelace", quantity := 100000000 }]
    buildResult := .ok "unsigned"
    signResult := .ok "signed"
    submitResult := .ok "hash" }

/-- Witness for C5 at the invalid-address environment. -/
theorem sendAda_failure_paths_witness :
    ∃ e, goSendAda c5Env = Except.error e ∧
      sendAda c5Env =
        some { sendStatus := "Error: " ++ deriveErrorMessage e
               txHash := none
               saved := { amount := c5Env.sendAmountRaw
                          recipient := c5Env.recipientAddress
                          message := jsOrUndef c5Env.sendMessage
                          status := .failed
                          errorMessage := some (deriveErrorMessage e)
                          txHash := none } } ∧
      (∃ o rest, sendAda c5Env = some o ∧ o.sendStatus = "Error:" ++ rest) :=
  sendAda_failure_paths c5Env rfl (by decide) (by decide) (Or.inl (by decide))

/-! ## C1: the net amount equals the spec's sum-based reconciliation -/

/-- When an amount list holds at most one `lovelace` entry, the quantity its
first `lovelace` entry contributes equals the sum of all its `lovelace`
quantities. -/
theorem findQuantity_eq_filterSum (l : List AssetAmount)
    (h : (l.filter (fun a => a.unit == "lovelace")).length ≤ 1) :
    (match l.find? (fun a => a.unit == "lovelace") with
     | some a => a.quantity
     | none => 0) =
      ((l.filter (fun a => a.unit == "lovelace")).map (fun a => a.quantity)).sum := by
  induction l with
  | nil => rfl
  | cons a t ih =>
      by_cases hp : (a.unit == "lovelace") = true
      · rw [List.find?_cons_of_pos (p := fun x : AssetAmount => x.unit == "lovelace") _ hp]
        rw [List.filter_cons_of_pos (p := fun x : AssetAmount => x.unit == "lovelace") hp] at h ⊢
        have ht : t.filter (fun a => a.unit == "lovelace") = [] := by
          rw [List.length_cons] at h
          exact List.eq_nil_of_length_eq_zero (by omega)
        rw [ht]
        simp
      · rw [List.find?_cons_of_neg (p := fun x : AssetAmount => x.unit == "lovelace") _ (by simpa using hp)]
        rw [List.filter_cons_of_neg (p := fun x : AssetAmount => x.unit == "lovelace") (by simpa using hp)] at h ⊢
        exact ih h

/-- Unfolding `specLovelaceSum` at a cons cell. -/
theorem specLovelaceSum_cons (e : UTXOEntry) (rest : List UTXOEntry) (address : String) :
    specLovelaceSum (e :: rest) address =
      (if (e.address == address) = true then
        ((e.amount.filter (fun a => a.unit == "lovelace")).map (fun a => a.quantity)).sum
       else 0) + specLovelaceSum rest address := by
  unfold specLovelaceSum
  by_cases ha : (e.address == address) = true
  · rw [List.filter_cons_of_pos (p := fun x : UTXOEntry => x.address == address) ha,
      List.map_cons, List.sum_cons, if_pos ha]
  · rw [List.filter_cons_of_neg (p := fun x : UTXOEntry => x.address == address) (by simpa using ha),
      if_neg ha, Nat.zero_add]

/-- Under the one-`lovelace`-entry-per-amount-list hypothesis, the source's
find-based accumulation agrees with the spec's sum over all `lovelace`
entries. -/
theorem sumLovelaceByFind_eq_spec (entries : List UTXOEntry) (address : String)
    (h : ∀ e ∈ entries, (e.amount.filter (fun a => a.unit == "lovelace")).length ≤ 1) :
    sumLovelaceByFind entries address = specLovelaceSum entries address := by
  induction entries with
  | nil => rfl
  | cons e rest ih =>
      rw [specLovelaceSum_cons]
      show (if (e.address == address) = true then lovelaceOfEntry e else 0) +
          sumLovelaceByFind rest address = _
      rw [ih (fun x hx => h x (List.mem_cons_of_mem _ hx))]
      congr 1
      by_cases ha : (e.address == address) = true
      · rw [if_pos ha, if_pos ha]
        exact findQuantity_eq_filterSum e.amount (h e (List.mem_cons_self _ _))
      · rw [if_neg ha, if_neg ha]

/-- C1: for every transaction UTXO set in which each amount list carries at
most one `lovelace` entry (as the explorer's per-unit aggregation
guarantees), `calculateAccurateTransactionAmount` returns the absolute value
of (the sum of the `lovelace` quantities of the outputs at the target
address) minus (the sum of the `lovelace` quantities of the inputs at the
target address), divided by 1,000,000 and rendered as a decimal string;
other units and other addresses contribute nothing. -/
theorem calcAmount_matches_spec (utxos : TxUTXOs) (address : String)
    (hout : ∀ e ∈ utxos.outputs, (e.amount.filter (fun a => a.unit == "lovelace")).length ≤ 1)
    (hin : ∀ e ∈ utxos.inputs, (e.amount.filter (fun a => a.unit == "lovelace")).length ≤ 1) :
    calculateAccurateTransactionAmount (Except.ok utxos) address =
      renderLovelaceAsAda
        ((specLovelaceSum utxos.outputs address : Int) -
          (specLovelaceSum utxos.inputs address : Int)).natAbs := by
  show renderLovelaceAsAda
      (((sumLovelaceByFind utxos.outputs address : Int) -
        (sumLovelaceByFind utxos.inputs address : Int)).natAbs) = _
  rw [sumLovelaceByFind_eq_spec utxos.outputs address hout,
      sumLovelaceByFind_eq_spec utxos.inputs address hin]

/-- The UTXO set of the C1 witness: `addrA` spends 10 ADA and gets back a
2.5 ADA change output; a non-`lovelace` token rides along at `addrB`. -/
def c1UTXOs : TxUTXOs :=
  { inputs := [{ address := "addrA", amount := [{ unit := "lovelace", quantity := 10000000 }] }]
    outputs := [{ address := "addrA", amount := [{ unit := "lovelace", quantity := 2500000 }] },
                { address := "addrB", amount := [{ unit := "lovelace", quantity := 7000000 },
                                                 { unit := "tokenX", quantity := 3 }] }] }

/-- Witness for C1 at the concrete UTXO set (the rendered value is `7.5`). -/
theorem calcAmount_matches_spec_witness :
    calculateAccurateTransactionAmount (Except.ok c1UTXOs) "addrA" =
      renderLovelaceAsAda
        ((specLovelaceSum c1UTXOs.outputs "addrA" : Int) -
          (specLovelaceSum c1UTXOs.inputs "addrA" : Int)).natAbs ∧
    calculateAccurateTransactionAmount (Except.ok c1UTXOs) "addrA" = "7.5" :=
  ⟨calcAmount_matches_spec c1UTXOs "addrA" (by decide) (by decide), by decide⟩

/-- Witness for C9 at the configuration with no AI API key at all. -/
theorem providers_never_empty_witness :
    getAvailableProviders
      { aiKey := none, openaiKey := none, geminiKey := none,
        anthropicKey := none, groqKey := none } = ["openai"] :=
  (providers_never_empty
    { aiKey := none, openaiKey := none, geminiKey := none,
      anthropicKey := none, groqKey := none }).2.2 rfl rfl rfl rfl rfl
